import Mathlib

/-!
Verification of the Conversation Risk Analysis Engine (src/palindrome.py).

The Python source is embedded shallowly:
* strings are Lean `String`s; `text.lower().strip()` is modelled at the
  character-list level (`asciiLower`, `trimChars`), faithful for the ASCII
  lexicons the program uses;
* Python's substring test `phrase in t` is `strIn`;
* the two keyword dictionaries, the urgent-phrase list and the two sentiment
  word lists are copied verbatim as list literals;
* `score_keywords` iterates the model sorted by descending phrase length
  (Python: `sorted(model.items(), key=lambda x: -len(x[0]))`, a stable sort,
  modelled by `List.insertionSort` with the same relation);
* machine arithmetic: all keyword weights are non-negative integer literals,
  so totals are `Nat`.  The normalisation `min(100, int((total/120)*100))`
  is computed by CPython in IEEE-754 doubles; for every natural `total` the
  clamped value coincides with the exact `min 100 (total * 100 / 120)`
  (checked exhaustively for `total < 121`, where the clamp is not yet
  saturated; for `total ≥ 121` the float quotient exceeds 100 and both sides
  clamp to 100), so `normScore` uses exact natural division;
* `statistics.mean` computes the exact rational sum/length before converting
  to float, and over the reachable range here (windows of at most 5 values,
  each value in [-7, 6]) the float comparisons agree with the exact rational
  ones (checked exhaustively), so the mean is modelled as `mkRat sum length`;
* the one failure path (`statistics.mean` of an empty window on a
  zero-utterance transcript) makes `analyse` return `Except.error`.
-/

namespace Palindrome

/-- ASCII lower-casing of one character, as `str.lower` acts on ASCII. -/
def asciiLower (c : Char) : Char :=
  if 65 ≤ c.toNat ∧ c.toNat ≤ 90 then Char.ofNat (c.toNat + 32) else c

/-- Strip whitespace from both ends of a character list (Python `str.strip`). -/
def trimChars (l : List Char) : List Char :=
  ((l.dropWhile fun c => c.isWhitespace).reverse.dropWhile fun c => c.isWhitespace).reverse

/-- Embeds `clean` from the source: `text.lower().strip()`. -/
def clean (text : String) : String :=
  String.mk (trimChars (text.data.map asciiLower))

/-- Does the character list `needle` occur at the start of `hay`? -/
def charsStartWith : List Char → List Char → Bool
  | [], _ => true
  | _ :: _, [] => false
  | a :: as, b :: bs => a == b && charsStartWith as bs

/-- Does `needle` occur contiguously anywhere in the second list? -/
def charsContain (needle : List Char) : List Char → Bool
  | [] => needle.isEmpty
  | c :: rest => charsStartWith needle (c :: rest) || charsContain needle rest

/-- Python's substring containment `needle in hay` on strings. -/
def strIn (needle hay : String) : Bool :=
  charsContain needle.data hay.data

/-- The HIV keyword model `HIV_KEYWORDS`, phrase/weight pairs in the
source dictionary's insertion order. -/
def HIV_KEYWORDS : List (String × Nat) :=
  [("unprotected sex", 35), ("condomless", 35), ("no condom", 30),
   ("sexual assault", 60), ("rape", 60), ("bleeding after sex", 35),
   ("partner hiv", 40), ("partner positive", 40), ("multiple partners", 25),
   ("new partner", 15), ("sti", 20), ("ulcer", 20), ("sore", 15),
   ("discharge", 15), ("recent exposure", 30), ("72 hours", 30)]

/-- The mental-health keyword model `MENTAL_KEYWORDS`, in the source
dictionary's insertion order. -/
def MENTAL_KEYWORDS : List (String × Nat) :=
  [("stressed", 20), ("anxious", 15), ("anxiety", 20), ("panic", 30),
   ("panic attack", 40), ("feeling down", 30), ("hopeless", 40),
   ("worthless", 40), ("can\x27t cope", 40), ("overwhelmed", 30),
   ("not sleeping", 20), ("insomnia", 15), ("suicide", 120),
   ("kill myself", 120), ("end my life", 120), ("self harm", 110),
   ("hurt myself", 110)]

/-- The fixed critical-phrase list `URGENT_PHRASES`, in declaration order. -/
def URGENT_PHRASES : List String :=
  ["suicide", "kill myself", "end my life", "self harm", "hurt myself",
   "rape", "sexual assault"]

/-- Positive sentiment word list `SENTIMENT_POS`. -/
def SENTIMENT_POS : List String :=
  ["good", "okay", "fine", "better", "improving", "relieved"]

/-- Negative sentiment word list `SENTIMENT_NEG`. -/
def SENTIMENT_NEG : List String :=
  ["sad", "bad", "angry", "upset", "scared", "worried", "hopeless"]

/-- `sorted(model.items(), key=lambda x: -len(x[0]))`: stable sort by
descending phrase length. -/
def sortLenDesc (model : List (String × Nat)) : List (String × Nat) :=
  @List.insertionSort _ (fun a b => b.1.length ≤ a.1.length)
    (fun _ _ => Nat.decLe _ _) model

/-- Embeds `score_keywords`: the total is accumulated over the
length-sorted model for every phrase contained in the cleaned text, and the
per-utterance tally records each matched phrase once. -/
def score_keywords (text : String) (model : List (String × Nat)) :
    Nat × List (String × Nat) :=
  let t := clean text
  let hits := (sortLenDesc model).filter (fun p => strIn p.1 t)
  ((hits.map Prod.snd).sum, hits.map (fun p => (p.1, 1)))

/-- Embeds `sentiment_score`: positive-word hits minus negative-word hits. -/
def sentiment_score (text : String) : Int :=
  let t := clean text
  ((SENTIMENT_POS.filter (fun w => strIn w t)).length : Int) -
    ((SENTIMENT_NEG.filter (fun w => strIn w t)).length : Int)

/-- One parsed transcript line. -/
structure Utterance where
  timestamp : String
  speaker : String
  message : String
deriving DecidableEq, Repr

/-- One urgent flag, as the dict appended in the source's urgent loop. -/
structure UrgentFlag where
  phrase : String
  timestamp : String
  speaker : String
  message : String
deriving DecidableEq, Repr

/-- The `scores` component of an analysis result. -/
structure Scores where
  hiv : Nat
  mental : Nat
deriving DecidableEq, Repr

/-- The engine's output structure. -/
structure AnalysisResult where
  scores : Scores
  hiv_matches : List (String × Nat)
  mh_matches : List (String × Nat)
  urgent : List UrgentFlag
  sentiment_trend : String
  raw_sentiments : List Int
deriving DecidableEq, Repr

/-- One `Counter` update for a single key (existing keys keep their slot,
new keys are appended, as for Python dicts). -/
def addTally (acc : List (String × Nat)) (k : String) (v : Nat) :
    List (String × Nat) :=
  if acc.any (fun p => p.1 == k) then
    acc.map (fun p => if p.1 == k then (p.1, p.2 + v) else p)
  else acc ++ [(k, v)]

/-- `Counter.update`: merge a per-utterance tally into the running tally. -/
def updateTally (acc upd : List (String × Nat)) : List (String × Nat) :=
  upd.foldl (fun a p => addTally a p.1 p.2) acc

/-- The running accumulator of the loop in `analyse`. -/
structure AccState where
  hiv_total : Nat
  mh_total : Nat
  hiv_matches : List (String × Nat)
  mh_matches : List (String × Nat)
  urgent : List UrgentFlag
  sentiment_history : List Int
deriving DecidableEq, Repr

/-- The body of the per-message loop in `analyse`. -/
def stepUtterance (st : AccState) (m : Utterance) : AccState :=
  let msg := m.message
  let s := sentiment_score msg
  let h := score_keywords msg HIV_KEYWORDS
  let mm := score_keywords msg MENTAL_KEYWORDS
  let flags := (URGENT_PHRASES.filter (fun u => strIn u (clean msg))).map
    (fun u => UrgentFlag.mk u m.timestamp m.speaker msg)
  { hiv_total := st.hiv_total + h.1
    mh_total := st.mh_total + mm.1
    hiv_matches := updateTally st.hiv_matches h.2
    mh_matches := updateTally st.mh_matches mm.2
    urgent := st.urgent ++ flags
    sentiment_history := st.sentiment_history ++ [s] }

/-- The zero accumulator at the top of `analyse`. -/
def initState : AccState :=
  { hiv_total := 0, mh_total := 0, hiv_matches := [], mh_matches := [],
    urgent := [], sentiment_history := [] }

/-- The accumulator after the whole loop of `analyse`. -/
def engineState (messages : List Utterance) : AccState :=
  messages.foldl stepUtterance initState

/-- `min(100, int((total/120)*100))`.  For every natural `total` the IEEE
double evaluation agrees with this exact form (see the header comment). -/
def normScore (total : Nat) : Nat :=
  min 100 (total * 100 / 120)

/-- Python's slice `l[-n:]`: the last `n` elements (all of them when the
list is shorter than `n`). -/
def lastN (n : Nat) (l : List Int) : List Int :=
  l.drop (l.length - n)

/-- `statistics.mean`: the exact rational sum/length, failing on an empty
window exactly as `mean([])` raises `StatisticsError`. -/
def meanQ (l : List Int) : Option ℚ :=
  if l.isEmpty then none else some (mkRat l.sum l.length)

/-- Embeds `analyse`.  The only failure path is the empty mean window of a
zero-utterance transcript; every other path returns the result record. -/
def analyse (messages : List Utterance) : Except String AnalysisResult :=
  let st := engineState messages
  let hiv_score := normScore st.hiv_total
  let mh_score := normScore st.mh_total
  match meanQ (lastN 5 st.sentiment_history), meanQ (st.sentiment_history.take 5) with
  | some lastMean, some firstMean =>
      Except.ok
        { scores := { hiv := hiv_score, mental := mh_score }
          hiv_matches := st.hiv_matches
          mh_matches := st.mh_matches
          urgent := st.urgent
          sentiment_trend :=
            if lastMean > firstMean then "Improving"
            else if lastMean < firstMean then "Worsening"
            else "Stable"
          raw_sentiments := st.sentiment_history }
  | _, _ => Except.error "StatisticsError: mean requires at least one data point"

/-- The HIGH HIV recommendation text. -/
def HIV_HIGH_TEXT : String :=
  "HIV Risk HIGH — Follow NDoH HTS & PEP guidelines: • Immediate HIV test\n• If exposure <72h: urgent PEP evaluation\n• Screen for STIs\n• Offer PrEP for ongoing risk"

/-- The MODERATE HIV recommendation text. -/
def HIV_MODERATE_TEXT : String :=
  "HIV Risk MODERATE — Recommend HTS testing soon, partner testing, and discuss PrEP per NDoH prevention program."

/-- The LOW HIV recommendation text. -/
def HIV_LOW_TEXT : String :=
  "HIV Risk LOW — Routine HTS testing recommended per NDoH policy."

/-- The CRITICAL mental-health recommendation text. -/
def MENTAL_CRITICAL_TEXT : String :=
  "Mental Health CRITICAL — Follow NDoH 72-hour Emergency Mental-Health policy: • Immediate safety assessment\n• Do not leave patient alone\n• Urgent psychiatric evaluation"

/-- The HIGH mental-health recommendation text. -/
def MENTAL_HIGH_TEXT : String :=
  "Mental Health HIGH — Urgent referral to mental-health professional. Screen with PHQ-9/GAD-7 and initiate brief counselling."

/-- The MODERATE mental-health recommendation text. -/
def MENTAL_MODERATE_TEXT : String :=
  "Mental Health MODERATE — Begin supportive counselling, lifestyle interventions, and schedule follow-up in 1–2 weeks."

/-- The LOW mental-health recommendation text. -/
def MENTAL_LOW_TEXT : String :=
  "Mental Health LOW — Mild symptoms: recommend self-care, sleep hygiene, and monitoring for escalation."

/-- The critical subset tested by the mental-health override:
`["suicide", "kill myself", "self harm", "hurt myself"]`. -/
def CRITICAL_SUBSET : List String :=
  ["suicide", "kill myself", "self harm", "hurt myself"]

/-- Embeds `ndoh_recommendations`: the HIV recommendation followed by the
mental-health recommendation. -/
def ndoh_recommendations (result : AnalysisResult) : List String :=
  let hiv := result.scores.hiv
  let mental := result.scores.mental
  let urgent := result.urgent
  let hivRec :=
    if hiv ≥ 70 then HIV_HIGH_TEXT
    else if hiv ≥ 35 then HIV_MODERATE_TEXT
    else HIV_LOW_TEXT
  let mentalRec :=
    if urgent.any (fun u => CRITICAL_SUBSET.contains u.phrase) then MENTAL_CRITICAL_TEXT
    else if mental ≥ 70 then MENTAL_HIGH_TEXT
    else if mental ≥ 35 then MENTAL_MODERATE_TEXT
    else MENTAL_LOW_TEXT
  [hivRec, mentalRec]

/-- The spec's mean of a window, written as rational division sum/length. -/
def specMean (l : List Int) : ℚ :=
  (l.sum : ℚ) / (l.length : ℚ)

/-- The spec's trend rule, stated in its own words: compare the mean of the
last five raw sentiments against the mean of the first five. -/
def specTrend (raws : List Int) : String :=
  if specMean (lastN 5 raws) > specMean (raws.take 5) then "Improving"
  else if specMean (lastN 5 raws) < specMean (raws.take 5) then "Worsening"
  else "Stable"

/-- A minimal concrete utterance used to instantiate proved theorems. -/
def demoUtterance : Utterance :=
  { timestamp := "01/01/2024, 10:00", speaker := "Alice", message := "" }

/-- The engine's output on the one-utterance transcript `[demoUtterance]`. -/
def demoResult : AnalysisResult :=
  { scores := { hiv := 0, mental := 0 }, hiv_matches := [], mh_matches := [],
    urgent := [], sentiment_trend := "Stable", raw_sentiments := [0] }

/-- A concrete utterance carrying a critical phrase (the spec's scenario). -/
def demoUrgentUtterance : Utterance :=
  { timestamp := "t", speaker := "Bob", message := "I want to kill myself" }

/-- The engine's output on `[demoUrgentUtterance]`. -/
def demoUrgentResult : AnalysisResult :=
  { scores := { hiv := 0, mental := 100 }, hiv_matches := [],
    mh_matches := [("kill myself", 1)],
    urgent := [{ phrase := "kill myself", timestamp := "t", speaker := "Bob",
                 message := "I want to kill myself" }],
    sentiment_trend := "Stable", raw_sentiments := [0] }

/-- The trend value `analyse` computes from a sentiment history, with the
mean written as `mkRat`. -/
def trendOf (hist : List Int) : String :=
  if mkRat (lastN 5 hist).sum (lastN 5 hist).length >
      mkRat (hist.take 5).sum (hist.take 5).length then "Improving"
  else if mkRat (lastN 5 hist).sum (lastN 5 hist).length <
      mkRat (hist.take 5).sum (hist.take 5).length then "Worsening"
  else "Stable"

lemma foldl_sentiment_history (messages : List Utterance) : ∀ st : AccState,
    (messages.foldl stepUtterance st).sentiment_history =
      st.sentiment_history ++ messages.map (fun m => sentiment_score m.message) := by
  induction messages with
  | nil => intro st; simp
  | cons m ms ih => intro st; simp [ih, stepUtterance]

lemma foldl_urgent (messages : List Utterance) : ∀ st : AccState,
    (messages.foldl stepUtterance st).urgent =
      st.urgent ++ messages.flatMap (fun m =>
        (URGENT_PHRASES.filter (fun u => strIn u (clean m.message))).map
          (fun u => UrgentFlag.mk u m.timestamp m.speaker m.message)) := by
  induction messages with
  | nil => intro st; simp
  | cons m ms ih => intro st; simp [ih, stepUtterance]

lemma engineState_sentiment_history (messages : List Utterance) :
    (engineState messages).sentiment_history =
      messages.map (fun m => sentiment_score m.message) := by
  simp [engineState, foldl_sentiment_history, initState]

lemma engineState_urgent (messages : List Utterance) :
    (engineState messages).urgent =
      messages.flatMap (fun m =>
        (URGENT_PHRASES.filter (fun u => strIn u (clean m.message))).map
          (fun u => UrgentFlag.mk u m.timestamp m.speaker m.message)) := by
  simp [engineState, foldl_urgent, initState]

lemma length_sentiment_history (messages : List Utterance) :
    (engineState messages).sentiment_history.length = messages.length := by
  simp [engineState_sentiment_history]

lemma analyse_nil :
    analyse [] = Except.error "StatisticsError: mean requires at least one data point" :=
  rfl

lemma ne_nil_of_analyse_ok {messages : List Utterance} {r : AnalysisResult}
    (h : analyse messages = Except.ok r) : messages ≠ [] := by
  rintro rfl
  rw [analyse_nil] at h
  exact Except.noConfusion h

lemma analyse_eq_ok (messages : List Utterance) (h : messages ≠ []) :
    analyse messages = Except.ok
      { scores := { hiv := normScore (engineState messages).hiv_total,
                    mental := normScore (engineState messages).mh_total }
        hiv_matches := (engineState messages).hiv_matches
        mh_matches := (engineState messages).mh_matches
        urgent := (engineState messages).urgent
        sentiment_trend := trendOf (engineState messages).sentiment_history
        raw_sentiments := (engineState messages).sentiment_history } := by
  have hne : (engineState messages).sentiment_history ≠ [] := by
    have hl := length_sentiment_history messages
    intro h0
    rw [h0] at hl
    exact h (List.length_eq_zero.mp hl.symm)
  have hpos : 0 < (engineState messages).sentiment_history.length :=
    List.length_pos.mpr hne
  have hlast : lastN 5 (engineState messages).sentiment_history ≠ [] := by
    unfold lastN
    rw [Ne, List.drop_eq_nil_iff]
    omega
  have htake : (engineState messages).sentiment_history.take 5 ≠ [] := by
    rw [Ne, List.take_eq_nil_iff]
    push_neg
    exact ⟨by norm_num, hne⟩
  have e1 : (lastN 5 (engineState messages).sentiment_history).isEmpty = false := by
    cases hx : lastN 5 (engineState messages).sentiment_history with
    | nil => exact absurd hx hlast
    | cons a l => rfl
  have e2 : ((engineState messages).sentiment_history.take 5).isEmpty = false := by
    cases hx : (engineState messages).sentiment_history.take 5 with
    | nil => exact absurd hx htake
    | cons a l => rfl
  have m1 : meanQ (lastN 5 (engineState messages).sentiment_history) =
      some (mkRat (lastN 5 (engineState messages).sentiment_history).sum
        (lastN 5 (engineState messages).sentiment_history).length) := by
    unfold meanQ
    rw [e1]
    rfl
  have m2 : meanQ ((engineState messages).sentiment_history.take 5) =
      some (mkRat ((engineState messages).sentiment_history.take 5).sum
        ((engineState messages).sentiment_history.take 5).length) := by
    unfold meanQ
    rw [e2]
    rfl
  simp only [analyse]
  rw [m1, m2]
  simp [trendOf]

lemma normScore_eq_floor (n : ℕ) :
    normScore n = min 100 (Nat.floor ((n : ℚ) / 120 * 100)) := by
  have h : ((n : ℚ) / 120 * 100) = ((n * 100 : ℕ) : ℚ) / ((120 : ℕ) : ℚ) := by
    push_cast
    ring
  rw [normScore, h, Nat.floor_div_nat, Nat.floor_natCast]

lemma score_keywords_fst (text : String) (model : List (String × Nat)) :
    (score_keywords text model).1 =
      ((model.filter (fun p => strIn p.1 (clean text))).map Prod.snd).sum := by
  have hperm : (sortLenDesc model).Perm model := by
    unfold sortLenDesc
    exact @List.perm_insertionSort _ (fun a b => b.1.length ≤ a.1.length)
      (fun _ _ => Nat.decLe _ _) model
  calc (score_keywords text model).1
      = (((sortLenDesc model).filter (fun p => strIn p.1 (clean text))).map Prod.snd).sum := rfl
    _ = ((model.filter (fun p => strIn p.1 (clean text))).map Prod.snd).sum :=
        ((hperm.filter _).map _).sum_eq

lemma mkRat_sum_length (l : List Int) : mkRat l.sum l.length = specMean l := by
  rw [Rat.mkRat_eq_div, specMean]

lemma trendOf_eq_specTrend (hist : List Int) : trendOf hist = specTrend hist := by
  unfold trendOf specTrend
  rw [mkRat_sum_length, mkRat_sum_length]

lemma ndoh_get1 (r : AnalysisResult) :
    (ndoh_recommendations r).get? 1 = some
      (if r.urgent.any (fun u => CRITICAL_SUBSET.contains u.phrase) then MENTAL_CRITICAL_TEXT
       else if r.scores.mental ≥ 70 then MENTAL_HIGH_TEXT
       else if r.scores.mental ≥ 35 then MENTAL_MODERATE_TEXT
       else MENTAL_LOW_TEXT) := rfl

lemma mental_high_ne : MENTAL_HIGH_TEXT ≠ MENTAL_CRITICAL_TEXT := by decide

lemma mental_moderate_ne : MENTAL_MODERATE_TEXT ≠ MENTAL_CRITICAL_TEXT := by decide

lemma mental_low_ne : MENTAL_LOW_TEXT ≠ MENTAL_CRITICAL_TEXT := by decide

/-- C1: the mental-health recommendation produced by `ndoh_recommendations`
is the CRITICAL tier exactly when some urgent flag's phrase lies in the
subset `["suicide", "kill myself", "self harm", "hurt myself"]`.  In
particular it is CRITICAL regardless of the numeric mental score (even 0),
and an urgent flag whose phrase is only `end my life`, `rape` or
`sexual assault` does not by itself select the CRITICAL tier. -/
theorem mental_rec_critical_iff (r : AnalysisResult) :
    (ndoh_recommendations r).get? 1 = some MENTAL_CRITICAL_TEXT ↔
      ∃ u ∈ r.urgent, u.phrase ∈ CRITICAL_SUBSET := by
  have hmem : (r.urgent.any (fun u => CRITICAL_SUBSET.contains u.phrase)) = true ↔
      ∃ u ∈ r.urgent, u.phrase ∈ CRITICAL_SUBSET := by
    simp [List.any_eq_true]
  rw [ndoh_get1, Option.some_inj]
  cases hc : r.urgent.any (fun u => CRITICAL_SUBSET.contains u.phrase) with
  | true =>
      simp only [hc, if_true]
      exact ⟨fun _ => hmem.mp hc, fun _ => trivial⟩
  | false =>
      rw [if_neg (by simp [hc])]
      constructor
      · intro habs
        exfalso
        split_ifs at habs
        · exact mental_high_ne habs
        · exact mental_moderate_ne habs
        · exact mental_low_ne habs
      · intro hex
        have := hmem.mpr hex
        rw [hc] at this
        exact absurd this (by simp)

/-- C2: on the empty transcript the engine fails, but not in the way the
claim requires.  The embedded `analyse` mirrors the source: the normalized
scores are computed first, and the trend step's mean over the empty window
then fails with the statistics module's generic error — there is no
distinct `EmptyTranscriptError` in the code.  No `AnalysisResult` (hence no
default `Stable` trend) is ever produced on empty input. -/
theorem analyse_empty_raises :
    analyse [] = Except.error "StatisticsError: mean requires at least one data point" :=
  rfl

/-- C3: whenever the engine returns a result, both normalized scores equal
`min 100 ⌊total / 120 * 100⌋` with exact rational flooring of the
accumulated totals (the IEEE evaluation in the source coincides with this
exact form for every natural total, as discussed in the header). -/
theorem scores_match_spec_floor (messages : List Utterance) (r : AnalysisResult)
    (h : analyse messages = Except.ok r) :
    r.scores.hiv = min 100 (Nat.floor (((engineState messages).hiv_total : ℚ) / 120 * 100)) ∧
    r.scores.mental = min 100 (Nat.floor (((engineState messages).mh_total : ℚ) / 120 * 100)) := by
  rw [analyse_eq_ok messages (ne_nil_of_analyse_ok h)] at h
  injection h with h'
  subst h'
  exact ⟨normScore_eq_floor _, normScore_eq_floor _⟩

/-- C3 witness: the theorem instantiated on a concrete one-line transcript. -/
theorem scores_match_spec_floor_witness :
    demoResult.scores.hiv =
      min 100 (Nat.floor (((engineState [demoUtterance]).hiv_total : ℚ) / 120 * 100)) ∧
    demoResult.scores.mental =
      min 100 (Nat.floor (((engineState [demoUtterance]).mh_total : ℚ) / 120 * 100)) :=
  scores_match_spec_floor [demoUtterance] demoResult rfl

/-- C4: every returned result has both scores inside the closed interval
[0, 100]; the lower bound needs no clamp because the accumulated totals are
sums of the non-negative lexicon weights. -/
theorem scores_within_bounds (messages : List Utterance) (r : AnalysisResult)
    (h : analyse messages = Except.ok r) :
    0 ≤ (r.scores.hiv : ℤ) ∧ (r.scores.hiv : ℤ) ≤ 100 ∧
    0 ≤ (r.scores.mental : ℤ) ∧ (r.scores.mental : ℤ) ≤ 100 := by
  rw [analyse_eq_ok messages (ne_nil_of_analyse_ok h)] at h
  injection h with h'
  subst h'
  refine ⟨Int.natCast_nonneg _, ?_, Int.natCast_nonneg _, ?_⟩
  · exact_mod_cast min_le_left 100 ((engineState messages).hiv_total * 100 / 120)
  · exact_mod_cast min_le_left 100 ((engineState messages).mh_total * 100 / 120)

/-- C4 witness: the theorem instantiated on a concrete transcript whose
analysis is evaluated explicitly. -/
theorem scores_within_bounds_witness :
    0 ≤ (demoUrgentResult.scores.hiv : ℤ) ∧ (demoUrgentResult.scores.hiv : ℤ) ≤ 100 ∧
    0 ≤ (demoUrgentResult.scores.mental : ℤ) ∧ (demoUrgentResult.scores.mental : ℤ) ≤ 100 :=
  scores_within_bounds [demoUrgentUtterance] demoUrgentResult rfl

/-- C5: the lexicon scorer's total is the sum of the weights of exactly the
model phrases contained in the cleaned text, and it does not depend on the
order in which the model's phrases are listed (so each present phrase
contributes its full weight once, and a longer match never suppresses a
shorter one). -/
theorem score_keywords_total_spec (text : String) (model model₂ : List (String × Nat))
    (h : model.Perm model₂) :
    (score_keywords text model).1 =
      ((model.filter (fun p => strIn p.1 (clean text))).map Prod.snd).sum ∧
    (score_keywords text model).1 = (score_keywords text model₂).1 := by
  refine ⟨score_keywords_fst text model, ?_⟩
  rw [score_keywords_fst text model, score_keywords_fst text model₂]
  exact ((h.filter _).map _).sum_eq

/-- C5 witness: the theorem instantiated on a concrete text, with the
mental-health lexicon against its own reversal. -/
theorem score_keywords_total_spec_witness :
    (score_keywords "Feeling anxious and stressed" MENTAL_KEYWORDS).1 =
      ((MENTAL_KEYWORDS.filter
        (fun p => strIn p.1 (clean "Feeling anxious and stressed"))).map Prod.snd).sum ∧
    (score_keywords "Feeling anxious and stressed" MENTAL_KEYWORDS).1 =
      (score_keywords "Feeling anxious and stressed" MENTAL_KEYWORDS.reverse).1 :=
  score_keywords_total_spec "Feeling anxious and stressed" MENTAL_KEYWORDS
    MENTAL_KEYWORDS.reverse (List.reverse_perm MENTAL_KEYWORDS).symm

/-- C6: the returned sentiment trend is exactly the spec's windowed rule:
mean of the last five raw sentiments strictly greater than the mean of the
first five gives `Improving`, strictly less gives `Worsening`, equality
gives `Stable`, with short transcripts using whatever values exist. -/
theorem trend_eq_spec (messages : List Utterance) (r : AnalysisResult)
    (h : analyse messages = Except.ok r) :
    r.sentiment_trend = specTrend r.raw_sentiments := by
  rw [analyse_eq_ok messages (ne_nil_of_analyse_ok h)] at h
  injection h with h'
  subst h'
  exact trendOf_eq_specTrend _

/-- C6 witness: the theorem instantiated on a concrete transcript. -/
theorem trend_eq_spec_witness :
    demoResult.sentiment_trend = specTrend demoResult.raw_sentiments :=
  trend_eq_spec [demoUtterance] demoResult rfl

/-- C7: the urgent-flag sequence of a returned result is the transcript
flattened in utterance order, each utterance contributing the critical
phrases it contains in `URGENT_PHRASES` declaration order (not the order
the phrases occur in the message text). -/
theorem urgent_flags_order (messages : List Utterance) (r : AnalysisResult)
    (h : analyse messages = Except.ok r) :
    r.urgent = messages.flatMap (fun m =>
      (URGENT_PHRASES.filter (fun u => strIn u (clean m.message))).map
        (fun u => UrgentFlag.mk u m.timestamp m.speaker m.message)) := by
  rw [analyse_eq_ok messages (ne_nil_of_analyse_ok h)] at h
  injection h with h'
  subst h'
  exact engineState_urgent messages

/-- C7 witness: the theorem instantiated on a transcript with one critical
phrase. -/
theorem urgent_flags_order_witness :
    demoUrgentResult.urgent = [demoUrgentUtterance].flatMap (fun m =>
      (URGENT_PHRASES.filter (fun u => strIn u (clean m.message))).map
        (fun u => UrgentFlag.mk u m.timestamp m.speaker m.message)) :=
  urgent_flags_order [demoUrgentUtterance] demoUrgentResult rfl

/-- C8: normalization is monotonic — a larger accumulated total never
yields a smaller normalized score. -/
theorem normScore_monotone (a b : Nat) (h : a ≤ b) : normScore a ≤ normScore b := by
  unfold normScore
  exact min_le_min le_rfl (Nat.div_le_div_right (Nat.mul_le_mul_right 100 h))

/-- C8 witness: the theorem instantiated at 35 ≤ 120. -/
theorem normScore_monotone_witness : 35 ≤ 120 ∧ normScore 35 ≤ normScore 120 :=
  ⟨by decide, normScore_monotone 35 120 (by decide)⟩

/-- C9: on a transcript of one to five utterances the first-five and
last-five windows are the whole sentiment list, so the trend is always
`Stable` whatever the individual sentiment values are. -/
theorem short_transcript_trend_stable (messages : List Utterance) (r : AnalysisResult)
    (h : analyse messages = Except.ok r) (h1 : 1 ≤ messages.length)
    (h5 : messages.length ≤ 5) : r.sentiment_trend = "Stable" := by
  rw [analyse_eq_ok messages (ne_nil_of_analyse_ok h)] at h
  injection h with h'
  subst h'
  have hlen : (engineState messages).sentiment_history.length = messages.length :=
    length_sentiment_history messages
  have hfull_take : (engineState messages).sentiment_history.take 5 =
      (engineState messages).sentiment_history :=
    List.take_of_length_le (by omega)
  have hfull_drop : lastN 5 (engineState messages).sentiment_history =
      (engineState messages).sentiment_history := by
    unfold lastN
    have h0 : (engineState messages).sentiment_history.length - 5 = 0 := by omega
    rw [h0, List.drop_zero]
  unfold trendOf
  rw [hfull_take, hfull_drop]
  simp [lt_irrefl]

/-- C9 witness: the theorem instantiated on a one-utterance transcript. -/
theorem short_transcript_trend_stable_witness :
    demoResult.sentiment_trend = "Stable" :=
  short_transcript_trend_stable [demoUtterance] demoResult rfl (by decide) (by decide)

/-- C10: the engine and the recommendation policy are deterministic: equal
ordered utterance sequences give equal analysis results and equal
recommendation lists (the embedding is a pure function of the transcript
and the fixed constant lexicons and word lists). -/
theorem engine_deterministic (m₁ m₂ : List Utterance) (h : m₁ = m₂) :
    analyse m₁ = analyse m₂ ∧
    (analyse m₁).map ndoh_recommendations = (analyse m₂).map ndoh_recommendations := by
  subst h
  exact ⟨rfl, rfl⟩

/-- C10 witness: the theorem instantiated on two copies of one transcript. -/
theorem engine_deterministic_witness :
    analyse [demoUrgentUtterance] = analyse [demoUrgentUtterance] ∧
    (analyse [demoUrgentUtterance]).map ndoh_recommendations =
      (analyse [demoUrgentUtterance]).map ndoh_recommendations :=
  engine_deterministic [demoUrgentUtterance] [demoUrgentUtterance] rfl

end Palindrome
